import Mathlib

/-!
Shallow embedding of the order-lifecycle and payment-dispatch core of the
3D-figurine platform backend.

Sources embedded:
- `src/services/database.ts` — `OrderService.createOrder`,
  `OrderService.updateOrderStatus`, `OrderService.getStatusTitle`,
  `CartService.getUserCart` (cart total).
- `src/controllers/orderController.ts` — `createOrder` (total computation),
  `updateOrderStatus` (admin endpoint), `cancelOrder`.
- `src/services/payment.ts` — `StripePaymentGateway` (`verifyPayment`,
  `handleWebhook`, minor-unit conversions), `WeChatPaymentGateway.verifyPayment`,
  `AlipayPaymentGateway.verifyPayment`, `PaymentManager` (registry dispatch,
  `calculateFees`).
- `src/routes/paymentController.ts` — `handleStripeWebhook`, `verifyPayment`
  endpoint logic.

JavaScript decimal amounts are embedded as `ℚ`, timestamps as `Nat`, the
Prisma order table as a `List Order`, and fallible paths as `Except`.
-/

namespace FigurinePlatform

/-- One entry of an order's timeline (Prisma `OrderTimeline`; fields per
`src/types/index.ts` and the `timeline.create` payloads in
`src/services/database.ts`). `completedAt` is a timestamp in abstract ticks. -/
structure TimelineEntry where
  status : String
  title : String
  description : Option String
  completed : Bool
  completedAt : Nat
deriving DecidableEq, Repr

/-- The order aggregate as created and mutated by `OrderService`
(`src/services/database.ts`): id, owning user, status string, decimal total,
and the append-only timeline (returned ordered by `createdAt asc`; appends
carry increasing timestamps, so list order is creation order). -/
structure Order where
  id : String
  userId : String
  status : String
  totalAmount : ℚ
  timeline : List TimelineEntry
deriving DecidableEq, Repr

namespace OrderService

/-- `OrderService.getStatusTitle` (src/services/database.ts lines 623-637):
maps a status string to its human-readable Chinese title, defaulting to
`状态更新` for unknown statuses. -/
def getStatusTitle (status : String) : String :=
  if status = "pending" then "待支付"
  else if status = "confirmed" then "已确认"
  else if status = "design_approved" then "设计已批准"
  else if status = "in_production" then "生产中"
  else if status = "quality_check" then "质量检查"
  else if status = "packaging" then "包装中"
  else if status = "shipped" then "已发货"
  else if status = "delivered" then "已送达"
  else if status = "cancelled" then "已取消"
  else "状态更新"

/-- `OrderService.createOrder` (src/services/database.ts lines 421-472):
creates the order with `status: 'pending'` and a single timeline entry
`(status 'pending', title '订单创建', description '订单已创建，等待支付',
completed, completedAt now)`. -/
def createOrder (id userId : String) (totalAmount : ℚ) (now : Nat) : Order :=
  { id := id
    userId := userId
    status := "pending"
    totalAmount := totalAmount
    timeline := [{ status := "pending"
                   title := "订单创建"
                   description := some "订单已创建，等待支付"
                   completed := true
                   completedAt := now }] }

/-- The pure per-order content of `OrderService.updateOrderStatus`
(src/services/database.ts lines 592-621): set `status` and append one
timeline entry with the same status, title `getStatusTitle status`,
description the optional note, `completed: true`, `completedAt` now.
No other field is touched. -/
def applyStatusUpdate (o : Order) (status : String) (note : Option String)
    (now : Nat) : Order :=
  { o with
    status := status
    timeline := o.timeline ++ [{ status := status
                                 title := getStatusTitle status
                                 description := note
                                 completed := true
                                 completedAt := now }] }

/-- Lookup by primary key, modelling `prisma.order.findUnique` /
`OrderService.getOrderById`. -/
def findOrder (db : List Order) (id : String) : Option Order :=
  db.find? (fun o => o.id = id)

/-- `OrderService.updateOrderStatus` (src/services/database.ts lines 592-621)
at database level: `prisma.order.update` throws (here: `.error`) when no order
has the id, otherwise atomically applies `applyStatusUpdate` and returns the
updated order. -/
def updateOrderStatus (db : List Order) (id status : String)
    (note : Option String) (now : Nat) : Except String (List Order × Order) :=
  match findOrder db id with
  | none => .error "RecordNotFound"
  | some o =>
      let o2 := applyStatusUpdate o status note now
      .ok (db.map (fun p => if p.id = id then o2 else p), o2)

end OrderService

end FigurinePlatform

namespace FigurinePlatform

/-- Helper for C1: status of the last timeline entry, if any. -/
def lastTimelineStatus (o : Order) : Option String :=
  (o.timeline.getLast?).map TimelineEntry.status

end FigurinePlatform

namespace FigurinePlatform

/-- One customization of a requested order item (`CreateOrderRequest` in
`src/types/index.ts`): only the add-on `price` matters for totals. -/
structure Customization where
  price : ℚ
deriving DecidableEq, Repr

/-- One item of a `CreateOrderRequest` (`src/types/index.ts`): product
reference, quantity and its customizations. The request carries no unit or
total price of its own. -/
structure OrderItemRequest where
  productId : String
  quantity : Nat
  customizations : List Customization
deriving DecidableEq, Repr

/-- A cart item as read by `CartService.getUserCart`
(src/services/database.ts): product reference and its stored computed
`totalPrice`. -/
structure CartItem where
  productId : String
  totalPrice : ℚ
deriving DecidableEq, Repr

namespace CartService

/-- The cart total computed in `CartService.getUserCart`
(src/services/database.ts line 820):
`cartItems.reduce((sum, item) => sum + item.totalPrice, 0)`. -/
def cartTotal (items : List CartItem) : ℚ :=
  items.foldl (fun sum item => sum + item.totalPrice) 0

end CartService

namespace OrderController

/-- The order total computed in the `createOrder` controller
(src/controllers/orderController.ts lines 47-50):
`orderItems.reduce((sum, item) => sum + item.quantity *
(item.customizations?.reduce((csum, c) => csum + c.price, 0) || 0), 0)`.
Note it sums only quantities times customization add-on prices. -/
def computeTotalAmount (items : List OrderItemRequest) : ℚ :=
  items.foldl
    (fun sum item =>
      sum + (item.quantity : ℚ) *
        item.customizations.foldl (fun csum c => csum + c.price) 0)
    0

/-- Admin endpoint `updateOrderStatus` (src/controllers/orderController.ts
lines 159-205): 404 `ORDER_NOT_FOUND` when the order does not exist,
otherwise delegates to `OrderService.updateOrderStatus` with the requested
status and note — there is no guard on the current status. Returns the
HTTP-level outcome together with the resulting database. -/
def updateOrderStatus (db : List Order) (id status : String)
    (note : Option String) (now : Nat) :
    Except (Nat × String) Order × List Order :=
  match OrderService.findOrder db id with
  | none => (.error (404, "ORDER_NOT_FOUND"), db)
  | some _ =>
      match OrderService.updateOrderStatus db id status note now with
      | .ok (db2, o2) => (.ok o2, db2)
      | .error _ => (.error (500, "INTERNAL_ERROR"), db)

/-- User endpoint `cancelOrder` (src/controllers/orderController.ts lines
208-276): 404 `ORDER_NOT_FOUND` when missing, 403 `ACCESS_DENIED` when the
requester does not own the order, 400 `CANNOT_CANCEL_ORDER` unless the
current status is `pending` or `confirmed`, otherwise
`OrderService.updateOrderStatus(id, 'cancelled', reason || '用户主动取消')`. -/
def cancelOrder (db : List Order) (requesterId id : String)
    (reason : Option String) (now : Nat) :
    Except (Nat × String) Order × List Order :=
  match OrderService.findOrder db id with
  | none => (.error (404, "ORDER_NOT_FOUND"), db)
  | some o =>
      if o.userId ≠ requesterId then (.error (403, "ACCESS_DENIED"), db)
      else if ¬ (o.status = "pending" ∨ o.status = "confirmed") then
        (.error (400, "CANNOT_CANCEL_ORDER"), db)
      else
        match OrderService.updateOrderStatus db id "cancelled"
            (some (reason.getD "用户主动取消")) now with
        | .ok (db2, o2) => (.ok o2, db2)
        | .error _ => (.error (500, "INTERNAL_ERROR"), db)

end OrderController

/-- A concrete order already in the terminal state `delivered`, used to
exercise the admin status-update endpoint. -/
def deliveredOrder : Order :=
  { id := "o1"
    userId := "u1"
    status := "delivered"
    totalAmount := 100
    timeline := [{ status := "pending"
                   title := "订单创建"
                   description := some "订单已创建，等待支付"
                   completed := true
                   completedAt := 0 },
                 { status := "delivered"
                   title := OrderService.getStatusTitle "delivered"
                   description := none
                   completed := true
                   completedAt := 1 }] }

namespace Payment

/-- The `PaymentResult` value object (`src/types/index.ts`): success flag,
transaction id, decimal amount, currency, method, normalized status,
timestamp. -/
structure PaymentResult where
  success : Bool
  transactionId : String
  amount : ℚ
  currency : String
  method : String
  status : String
  createdAt : Nat
deriving DecidableEq, Repr

/-- Stripe credentials from `config.payment.stripe` (`src/config`): optional
secret key (gateway configured iff present) and optional webhook secret. -/
structure StripeConfig where
  secretKey : Option String
  webhookSecret : Option String
deriving DecidableEq, Repr

/-- A Stripe webhook event after parsing: its `type`, its id, and the
`metadata.orderId` the adapter embedded at session creation
(`src/services/payment.ts` line 56). -/
structure StripeEvent where
  type : String
  id : String
  metadataOrderId : Option String
deriving DecidableEq, Repr

/-- The signature the Stripe SDK computes over an event with the shared
webhook secret. The SDK's HMAC is external code; it is modelled as an
injective tagging of the event by the secret, which preserves exactly the
property the code relies on: `constructEvent` accepts a payload iff the
presented signature equals this value. -/
def stripeSignature (event : StripeEvent) (secret : String) : String :=
  secret ++ ":" ++ event.id ++ ":" ++ event.type

/-- A Stripe checkout session as retrieved by
`stripe.checkout.sessions.retrieve`: provider status string, amount in minor
units (cents, nullable), currency (nullable), creation time in seconds. -/
structure StripeSession where
  id : String
  payment_status : String
  amount_total : Option Int
  currency : Option String
  created : Nat
deriving DecidableEq, Repr

namespace StripePaymentGateway

/-- The minor-to-major conversion `(session.amount_total || 0) / 100` used in
`StripePaymentGateway.verifyPayment` (src/services/payment.ts line 104). -/
def minorToMajor (m : Int) : ℚ := (m : ℚ) / 100

/-- The major-to-minor conversion `Math.round(amount * 100)` used in
`StripePaymentGateway.createPayment` (line 48) and `refundPayment`
(line 182). -/
def majorToMinor (x : ℚ) : Int := round (x * 100)

/-- `StripePaymentGateway.handleWebhook` (src/services/payment.ts lines
135-169): throws (returns the error result `STRIPE_WEBHOOK_ERROR`) unless
the gateway and webhook secret are configured and
`stripe.webhooks.constructEvent` accepts the signature; on success returns
the event data. -/
def handleWebhook (cfg : StripeConfig) (event : StripeEvent)
    (signature : String) : Except String StripeEvent :=
  match cfg.secretKey, cfg.webhookSecret with
  | some _, some secret =>
      if signature = stripeSignature event secret then .ok event
      else .error "STRIPE_WEBHOOK_ERROR"
  | _, _ => .error "STRIPE_WEBHOOK_ERROR"

/-- `StripePaymentGateway.verifyPayment` (src/services/payment.ts lines
90-133): retrieves the checkout session (`sessions` models the provider);
returns a completed `PaymentResult` iff `payment_status === 'paid'`, the
error `STRIPE_PAYMENT_NOT_COMPLETED` for any other provider status, and
`STRIPE_VERIFICATION_ERROR` when unconfigured or retrieval throws. -/
def verifyPayment (cfg : StripeConfig)
    (sessions : String → Option StripeSession) (paymentId : String) :
    Except String PaymentResult :=
  match cfg.secretKey with
  | none => .error "STRIPE_VERIFICATION_ERROR"
  | some _ =>
      match sessions paymentId with
      | none => .error "STRIPE_VERIFICATION_ERROR"
      | some s =>
          if s.payment_status = "paid" then
            .ok { success := true
                  transactionId := s.id
                  amount := minorToMajor (s.amount_total.getD 0)
                  currency := s.currency.getD "usd"
                  method := "stripe"
                  status := "completed"
                  createdAt := s.created * 1000 }
          else .error "STRIPE_PAYMENT_NOT_COMPLETED"

end StripePaymentGateway

namespace WeChatPaymentGateway

/-- `WeChatPaymentGateway.verifyPayment` (src/services/payment.ts lines
491-521): the simulated implementation performs no provider poll at all and
unconditionally reports a successful, completed payment of amount 0. -/
def verifyPayment (paymentId : String) (now : Nat) :
    Except String PaymentResult :=
  .ok { success := true
        transactionId := paymentId
        amount := 0
        currency := "CNY"
        method := "wechat"
        status := "completed"
        createdAt := now }

end WeChatPaymentGateway

namespace AlipayPaymentGateway

/-- `AlipayPaymentGateway.verifyPayment` (src/services/payment.ts lines
619-649): like the WeChat one, unconditionally successful and completed. -/
def verifyPayment (paymentId : String) (now : Nat) :
    Except String PaymentResult :=
  .ok { success := true
        transactionId := paymentId
        amount := 0
        currency := "CNY"
        method := "alipay"
        status := "completed"
        createdAt := now }

end AlipayPaymentGateway

/-- The property names a JavaScript object-literal lookup `obj[key]`
resolves through the prototype chain when `key` is not an own property:
the members of `Object.prototype`. Each of them is a truthy value (a
function, or for `__proto__` the prototype object itself). -/
def objectPrototypeKeys : List String :=
  ["constructor", "hasOwnProperty", "isPrototypeOf", "propertyIsEnumerable",
   "toLocaleString", "toString", "valueOf", "__defineGetter__",
   "__defineSetter__", "__lookupGetter__", "__lookupSetter__", "__proto__"]

namespace PaymentManager

/-- The keys registered in the `PaymentManager` constructor
(src/services/payment.ts lines 712-720). -/
def gatewayKeys : List String := ["stripe", "paypal", "wechat", "alipay"]

/-- `PaymentManager.createPayment` (src/services/payment.ts lines 723-745):
looks the method up in the registry; unregistered methods yield
`UNSUPPORTED_PAYMENT_METHOD` without any gateway call; otherwise the call is
delegated to the registered adapter (`gateways` abstracts the four adapter
implementations). -/
def createPayment {α : Type}
    (gateways : String → Order → String → String → Except String α)
    (method : String) (order : Order) (returnUrl cancelUrl : String) :
    Except String α :=
  if method ∈ gatewayKeys then gateways method order returnUrl cancelUrl
  else .error "UNSUPPORTED_PAYMENT_METHOD"

/-- `PaymentManager.calculateFees` (src/services/payment.ts lines 830-840):
`const rate = feeRates[method] || 0.03; return amount * rate`, where
`feeRates` is a plain object literal with own entries stripe 0.029,
paypal 0.034, wechat 0.006, alipay 0.006. The bracket lookup finds the four
own entries; for any other key it walks the prototype chain, so a key naming
an `Object.prototype` member yields that truthy non-numeric member, the
`|| 0.03` fallback is bypassed, and `amount * rate` evaluates to NaN
(modelled as `none`); only keys absent from the whole chain give
`undefined` and hence the 3% default. -/
def calculateFees (amount : ℚ) (method : String) : Option ℚ :=
  if method = "stripe" then some (amount * (29 / 1000))
  else if method = "paypal" then some (amount * (34 / 1000))
  else if method = "wechat" then some (amount * (6 / 1000))
  else if method = "alipay" then some (amount * (6 / 1000))
  else if method ∈ objectPrototypeKeys then none
  else some (amount * (3 / 100))

end PaymentManager

/-- The Stripe webhook ingress `handleStripeWebhook`
(src/routes/paymentController.ts lines 148-180): calls the adapter's
`handleWebhook`; on success, if the event is `checkout.session.completed`
and carries `metadata.orderId`, it calls
`OrderService.updateOrderStatus(orderId, 'confirmed', 'Stripe支付完成')` —
unconditionally, with no check of the order's current status. Returns the
response success flag and the resulting database (an `updateOrderStatus`
throw is caught and answered with a 400 error). -/
def handleStripeWebhook (cfg : StripeConfig) (db : List Order)
    (event : StripeEvent) (signature : String) (now : Nat) :
    Bool × List Order :=
  match StripePaymentGateway.handleWebhook cfg event signature with
  | .error _ => (false, db)
  | .ok ev =>
      if ev.type = "checkout.session.completed" then
        match ev.metadataOrderId with
        | some orderId =>
            match OrderService.updateOrderStatus db orderId "confirmed"
                (some "Stripe支付完成") now with
            | .ok (db2, _) => (true, db2)
            | .error _ => (false, db)
        | none => (true, db)
      else (true, db)

/-- The tail of the `verifyPayment` endpoint
(src/routes/paymentController.ts lines 119-144): given the gateway's verify
result, update the order to `confirmed` with note `支付验证成功` iff the
result is successful with normalized status `completed`; otherwise the
database is left untouched and the result is echoed back. -/
def applyVerifyOutcome (db : List Order) (orderId : String)
    (result : Except String PaymentResult) (now : Nat) : Bool × List Order :=
  match result with
  | .error _ => (false, db)
  | .ok r =>
      if r.success = true ∧ r.status = "completed" then
        match OrderService.updateOrderStatus db orderId "confirmed"
            (some "支付验证成功") now with
        | .ok (db2, _) => (true, db2)
        | .error _ => (false, db)
      else (true, db)

/-- The `verifyPayment` endpoint (src/routes/paymentController.ts lines
80-145): 404 when the order is missing, 403 unless the requester owns the
order or is an admin, then `applyVerifyOutcome` on the gateway's verify
result. -/
def verifyPaymentEndpoint (db : List Order) (requesterId : String)
    (isAdmin : Bool) (orderId : String)
    (result : Except String PaymentResult) (now : Nat) : Bool × List Order :=
  match OrderService.findOrder db orderId with
  | none => (false, db)
  | some o =>
      if o.userId = requesterId ∨ isAdmin = true then
        applyVerifyOutcome db orderId result now
      else (false, db)

/-- A configured Stripe gateway for concrete runs. -/
def demoStripeConfig : StripeConfig :=
  { secretKey := some "sk_test_1", webhookSecret := some "whsec_1" }

/-- A completed-checkout webhook event correlated to order `o1`. -/
def demoEvent : StripeEvent :=
  { type := "checkout.session.completed", id := "evt_1",
    metadataOrderId := some "o1" }

/-- A database holding one freshly created (pending) order `o1`. -/
def demoDb : List Order := [OrderService.createOrder "o1" "u1" 299 0]

/-- The database after the first delivery of `demoEvent` with a valid
signature. -/
def afterFirstDelivery : List Order :=
  (handleStripeWebhook demoStripeConfig demoDb demoEvent
    (stripeSignature demoEvent "whsec_1") 1).2

/-- The database after re-delivering the very same event. -/
def afterSecondDelivery : List Order :=
  (handleStripeWebhook demoStripeConfig afterFirstDelivery demoEvent
    (stripeSignature demoEvent "whsec_1") 2).2

/-- A provider session store holding one still-unpaid checkout session. -/
def demoSessions : String → Option StripeSession :=
  fun x =>
    if x = "cs_1" then
      some { id := "cs_1", payment_status := "unpaid",
             amount_total := some 4990, currency := some "usd", created := 7 }
    else none

end Payment

/-- The state order `o1` reaches after the first webhook delivery. -/
def confirmedDemoOrder : Order :=
  OrderService.applyStatusUpdate (OrderService.createOrder "o1" "u1" 299 0)
    "confirmed" (some "Stripe支付完成") 1

end FigurinePlatform

namespace FigurinePlatform

theorem lastTimelineStatus_append (o : Order) (e : TimelineEntry) :
    lastTimelineStatus { o with timeline := o.timeline ++ [e] } = some e.status := by
  simp [lastTimelineStatus, List.getLast?_append]

/-- C1: for every order, at creation (`OrderService.createOrder`) and after
every application of the status-update operation
(`OrderService.updateOrderStatus`, whose per-order effect is
`applyStatusUpdate`), the order's `status` field equals the status of the
last entry of its timeline. -/
theorem c1_status_matches_last_timeline :
    (∀ (id userId : String) (amt : ℚ) (now : Nat),
      lastTimelineStatus (OrderService.createOrder id userId amt now)
        = some (OrderService.createOrder id userId amt now).status) ∧
    (∀ (o : Order) (s : String) (note : Option String) (now : Nat),
      lastTimelineStatus (OrderService.applyStatusUpdate o s note now)
        = some (OrderService.applyStatusUpdate o s note now).status) ∧
    (∀ (db : List Order) (id s : String) (note : Option String) (now : Nat)
        (db2 : List Order) (o2 : Order),
      OrderService.updateOrderStatus db id s note now = .ok (db2, o2) →
      lastTimelineStatus o2 = some o2.status) := by
  refine ⟨fun id userId amt now => rfl, fun o s note now => ?_, ?_⟩
  · exact lastTimelineStatus_append o _
  · intro db id s note now db2 o2 h
    unfold OrderService.updateOrderStatus at h
    cases hf : OrderService.findOrder db id with
    | none => rw [hf] at h; exact absurd h (by simp)
    | some o =>
        rw [hf] at h
        simp only [Except.ok.injEq, Prod.mk.injEq] at h
        rw [← h.2]
        exact lastTimelineStatus_append o _

/-- Witness for C1's hypothesis-bearing conjunct: a concrete successful
status update whose result satisfies the invariant. -/
theorem c1_status_matches_last_timeline_witness :
    lastTimelineStatus
      (OrderService.applyStatusUpdate
        (OrderService.createOrder "o1" "u1" 299 0) "confirmed" none 1)
      = some (OrderService.applyStatusUpdate
        (OrderService.createOrder "o1" "u1" 299 0) "confirmed" none 1).status :=
  c1_status_matches_last_timeline.2.2
    [OrderService.createOrder "o1" "u1" 299 0] "o1" "confirmed" none 1
    [OrderService.applyStatusUpdate
      (OrderService.createOrder "o1" "u1" 299 0) "confirmed" none 1]
    (OrderService.applyStatusUpdate
      (OrderService.createOrder "o1" "u1" 299 0) "confirmed" none 1)
    (by rfl)

theorem findOrder_map_update (db : List Order) (id : String) (o o2 : Order)
    (hid : o2.id = id) (hfind : OrderService.findOrder db id = some o) :
    OrderService.findOrder (db.map (fun p => if p.id = id then o2 else p)) id
      = some o2 := by
  induction db with
  | nil => simp [OrderService.findOrder] at hfind
  | cons a t ih =>
      simp only [OrderService.findOrder, List.map_cons] at *
      by_cases h : a.id = id
      · rw [if_pos h, List.find?_cons_of_pos _ (by simp [hid])]
      · rw [List.find?_cons_of_neg _ (by simp [h])] at hfind
        rw [if_neg h, List.find?_cons_of_neg _ (by simp [h])]
        exact ih hfind

theorem findOrder_id (db : List Order) (id : String) (o : Order)
    (hfind : OrderService.findOrder db id = some o) : o.id = id := by
  have := List.find?_some hfind
  simpa using this

/-- C3 counterexample: the admin status-update endpoint moves an order whose
current status is the terminal `delivered` to `pending`, changing its status
and appending a timeline entry — the claim that the operation never
transitions out of a terminal state is false on the code. -/
theorem c3_terminal_escape_counterexample :
    deliveredOrder.status = "delivered" ∧
    ((OrderController.updateOrderStatus [deliveredOrder] "o1" "pending" none 2).2.map
        Order.status) = ["pending"] ∧
    (OrderController.updateOrderStatus [deliveredOrder] "o1" "pending" none 2).2
      ≠ [deliveredOrder] := by
  refine ⟨rfl, rfl, by decide⟩

/-- C3 amended: for every existing order — whatever its current status,
including the terminal states `delivered` and `cancelled` — and every target
status, the admin status-update operation succeeds unconditionally: it sets
the order's status to the target and appends one timeline entry (only the
user-cancellation endpoint guards on the current status). -/
theorem c3_unconditional_transition (db : List Order) (id status : String)
    (note : Option String) (now : Nat) (o : Order)
    (hfind : OrderService.findOrder db id = some o) :
    ∃ db2, OrderController.updateOrderStatus db id status note now
        = (.ok (OrderService.applyStatusUpdate o status note now), db2) ∧
      OrderService.findOrder db2 id
        = some (OrderService.applyStatusUpdate o status note now) := by
  unfold OrderController.updateOrderStatus OrderService.updateOrderStatus
  rw [hfind]
  refine ⟨_, rfl, ?_⟩
  exact findOrder_map_update db id o _ (findOrder_id db id o hfind)
    hfind

/-- Witness for C3's amended theorem: a delivered order concretely moved to
`pending` by the admin endpoint. -/
theorem c3_unconditional_transition_witness :
    ∃ db2, OrderController.updateOrderStatus [deliveredOrder] "o1" "pending" none 2
        = (.ok (OrderService.applyStatusUpdate deliveredOrder "pending" none 2), db2) ∧
      OrderService.findOrder db2 "o1"
        = some (OrderService.applyStatusUpdate deliveredOrder "pending" none 2) :=
  c3_unconditional_transition [deliveredOrder] "o1" "pending" none 2
    deliveredOrder (by rfl)

/-- C4: for an existing order owned by the requester, cancellation succeeds
iff its current status is `pending` or `confirmed`; from any other status
the endpoint signals the invalid-transition error `CANNOT_CANCEL_ORDER`
(HTTP 400) and leaves the database — hence the order's status and timeline —
unchanged; on success the order becomes `cancelled` with one appended
timeline entry. -/
theorem c4_cancellation_guard (db : List Order) (uid id : String)
    (reason : Option String) (now : Nat) (o : Order)
    (hfind : OrderService.findOrder db id = some o) (hown : o.userId = uid) :
    ((∃ o2 db2, OrderController.cancelOrder db uid id reason now = (.ok o2, db2))
        ↔ (o.status = "pending" ∨ o.status = "confirmed")) ∧
    (¬ (o.status = "pending" ∨ o.status = "confirmed") →
      OrderController.cancelOrder db uid id reason now
        = (.error (400, "CANNOT_CANCEL_ORDER"), db)) ∧
    ((o.status = "pending" ∨ o.status = "confirmed") →
      (OrderController.cancelOrder db uid id reason now).1
        = .ok (OrderService.applyStatusUpdate o "cancelled"
            (some (reason.getD "用户主动取消")) now)) := by
  unfold OrderController.cancelOrder
  rw [hfind]
  dsimp only
  rw [if_neg (not_not_intro hown)]
  by_cases hg : o.status = "pending" ∨ o.status = "confirmed"
  · rw [if_neg (not_not_intro hg)]
    unfold OrderService.updateOrderStatus
    rw [hfind]
    exact ⟨⟨fun _ => hg, fun _ => ⟨_, _, rfl⟩⟩, fun h => absurd hg h, fun _ => rfl⟩
  · rw [if_pos hg]
    refine ⟨⟨?_, fun h => absurd h hg⟩, fun _ => rfl, fun h => absurd h hg⟩
    rintro ⟨o2, db2, h⟩
    simp at h

/-- Witness for C4: a freshly created (hence `pending`) order owned by the
requester, at which every hypothesis of the guard theorem is discharged. -/
theorem c4_cancellation_guard_witness :
    ((∃ o2 db2, OrderController.cancelOrder
          [OrderService.createOrder "o1" "u1" 50 0] "u1" "o1" none 1 = (.ok o2, db2))
        ↔ ((OrderService.createOrder "o1" "u1" 50 0).status = "pending" ∨
            (OrderService.createOrder "o1" "u1" 50 0).status = "confirmed")) ∧
    (¬ ((OrderService.createOrder "o1" "u1" 50 0).status = "pending" ∨
        (OrderService.createOrder "o1" "u1" 50 0).status = "confirmed") →
      OrderController.cancelOrder
          [OrderService.createOrder "o1" "u1" 50 0] "u1" "o1" none 1
        = (.error (400, "CANNOT_CANCEL_ORDER"),
            [OrderService.createOrder "o1" "u1" 50 0])) ∧
    (((OrderService.createOrder "o1" "u1" 50 0).status = "pending" ∨
        (OrderService.createOrder "o1" "u1" 50 0).status = "confirmed") →
      (OrderController.cancelOrder
          [OrderService.createOrder "o1" "u1" 50 0] "u1" "o1" none 1).1
        = .ok (OrderService.applyStatusUpdate (OrderService.createOrder "o1" "u1" 50 0)
            "cancelled" (some "用户主动取消") 1)) :=
  c4_cancellation_guard [OrderService.createOrder "o1" "u1" 50 0] "u1" "o1"
    none 1 (OrderService.createOrder "o1" "u1" 50 0) (by rfl) (by rfl)

/-- C8: evaluation at the failing input. The `createOrder` controller's
total is quantity times the sum of customization add-on prices only: an
order of one uncustomized item whose cart entry has `totalPrice` 100 gets
`totalAmount` 0, not the sum of its item totals (100). The claim's
immutability half does hold: a status update changes only `status` and the
appended timeline entry. -/
theorem c8_total_ignores_item_prices :
    OrderController.computeTotalAmount
        [{ productId := "p1", quantity := 1, customizations := [] }] = 0 ∧
    CartService.cartTotal [{ productId := "p1", totalPrice := 100 }] = 100 ∧
    (0 : ℚ) ≠ 100 ∧
    (∀ (o : Order) (s : String) (note : Option String) (now : Nat),
      (OrderService.applyStatusUpdate o s note now).totalAmount = o.totalAmount ∧
      (OrderService.applyStatusUpdate o s note now).id = o.id ∧
      (OrderService.applyStatusUpdate o s note now).userId = o.userId) := by
  refine ⟨?_, ?_, by norm_num, fun o s note now => ⟨rfl, rfl, rfl⟩⟩
  · norm_num [OrderController.computeTotalAmount]
  · norm_num [CartService.cartTotal]

/-- C2 counterexample: delivering the same valid `checkout.session.completed`
event twice to the Stripe webhook ingress leaves order `o1` with TWO
timeline entries of status `confirmed`, and the second delivery did change
the database — the claimed idempotence (exactly one `confirmed` entry, the
second delivery a no-op) is false on the code. -/
theorem c2_duplicate_delivery_counterexample :
    (OrderService.findOrder Payment.afterSecondDelivery "o1").map
        (fun o => ((o.timeline.filter (fun e => e.status = "confirmed")).length,
          o.status))
      = some (2, "confirmed") ∧
    Payment.afterSecondDelivery ≠ Payment.afterFirstDelivery := by
  exact ⟨rfl, by decide⟩

/-- C2 amended: re-delivery of the same valid payment-completed webhook
event for an order already `confirmed` again returns success, and again
applies the status update: the status stays `confirmed` but a second
`confirmed` timeline entry is appended (idempotent on the `status` field,
not on the timeline). -/
theorem c2_second_delivery_appends_duplicate (cfg : Payment.StripeConfig)
    (secret : String) (db : List Order) (oid : String) (o : Order)
    (ev : Payment.StripeEvent) (now : Nat)
    (hk : cfg.secretKey.isSome = true) (hs : cfg.webhookSecret = some secret)
    (hfind : OrderService.findOrder db oid = some o)
    (hst : o.status = "confirmed")
    (ht : ev.type = "checkout.session.completed")
    (hm : ev.metadataOrderId = some oid) :
    (Payment.handleStripeWebhook cfg db ev
        (Payment.stripeSignature ev secret) now).1 = true ∧
    OrderService.findOrder
        (Payment.handleStripeWebhook cfg db ev
          (Payment.stripeSignature ev secret) now).2 oid
      = some (OrderService.applyStatusUpdate o "confirmed"
          (some "Stripe支付完成") now) := by
  obtain ⟨k, hk2⟩ := Option.isSome_iff_exists.mp hk
  unfold Payment.handleStripeWebhook Payment.StripePaymentGateway.handleWebhook
  rw [hk2, hs]
  dsimp only
  rw [if_pos rfl]
  dsimp only
  rw [if_pos ht, hm]
  dsimp only
  unfold OrderService.updateOrderStatus
  rw [hfind]
  dsimp only
  exact ⟨rfl, findOrder_map_update db oid o _ (findOrder_id db oid o hfind)
    hfind⟩

/-- Witness for C2's amended theorem: the concrete second delivery on the
demo database. -/
theorem c2_second_delivery_witness :
    (Payment.handleStripeWebhook Payment.demoStripeConfig
        Payment.afterFirstDelivery Payment.demoEvent
        (Payment.stripeSignature Payment.demoEvent "whsec_1") 2).1 = true ∧
    OrderService.findOrder
        (Payment.handleStripeWebhook Payment.demoStripeConfig
          Payment.afterFirstDelivery Payment.demoEvent
          (Payment.stripeSignature Payment.demoEvent "whsec_1") 2).2 "o1"
      = some (OrderService.applyStatusUpdate confirmedDemoOrder "confirmed"
          (some "Stripe支付完成") 2) :=
  c2_second_delivery_appends_duplicate Payment.demoStripeConfig "whsec_1"
    Payment.afterFirstDelivery "o1" confirmedDemoOrder Payment.demoEvent 2
    rfl rfl (by decide) rfl rfl rfl

/-- C5: if the presented `stripe-signature` is not the one the SDK computes
with the configured webhook secret, the Stripe webhook ingress answers with
a non-success result and performs no state mutation: the database — every
order's status and timeline — is returned unchanged. -/
theorem c5_invalid_signature_rejected (cfg : Payment.StripeConfig)
    (db : List Order) (ev : Payment.StripeEvent) (sig : String) (now : Nat)
    (secret : String) (hs : cfg.webhookSecret = some secret)
    (hsig : sig ≠ Payment.stripeSignature ev secret) :
    Payment.handleStripeWebhook cfg db ev sig now = (false, db) := by
  obtain ⟨sk, ws⟩ := cfg
  dsimp only at hs
  subst hs
  unfold Payment.handleStripeWebhook Payment.StripePaymentGateway.handleWebhook
  cases sk with
  | none => rfl
  | some k =>
      dsimp only
      rw [if_neg hsig]

/-- Witness for C5: a concrete bad signature is rejected and the demo
database is untouched. -/
theorem c5_invalid_signature_witness :
    Payment.handleStripeWebhook Payment.demoStripeConfig Payment.demoDb
        Payment.demoEvent "bad_signature" 1 = (false, Payment.demoDb) :=
  c5_invalid_signature_rejected Payment.demoStripeConfig Payment.demoDb
    Payment.demoEvent "bad_signature" 1 "whsec_1" rfl (by decide)

/-- C6 counterexample: the simulated WeChat and Alipay adapters consult no
provider state at all, so even while the provider transaction is still
pending their `verifyPayment` returns `success = true` with normalized
status `completed` — refuting the claim that every adapter returns a
non-success result whenever the provider reports anything other than
paid. -/
theorem c6_simulated_verify_counterexample :
    Payment.WeChatPaymentGateway.verifyPayment "wx_tx_1" 0
      = .ok { success := true, transactionId := "wx_tx_1", amount := 0,
              currency := "CNY", method := "wechat", status := "completed",
              createdAt := 0 } ∧
    Payment.AlipayPaymentGateway.verifyPayment "ali_tx_1" 0
      = .ok { success := true, transactionId := "ali_tx_1", amount := 0,
              currency := "CNY", method := "alipay", status := "completed",
              createdAt := 0 } := ⟨rfl, rfl⟩

/-- C6 amended: the Stripe adapter does satisfy the claim — any provider
status other than `paid` yields the error `STRIPE_PAYMENT_NOT_COMPLETED` —
and a non-success verify result never alters any order (the endpoint leaves
the database unchanged); but the simulated WeChat (and Alipay) adapters
unconditionally report a successful completed payment regardless of the
provider. -/
theorem c6_verify_amended (cfg : Payment.StripeConfig) (k : String)
    (sessions : String → Option Payment.StripeSession) (pid : String)
    (s : Payment.StripeSession) (hk : cfg.secretKey = some k)
    (hsess : sessions pid = some s) (hnp : s.payment_status ≠ "paid") :
    Payment.StripePaymentGateway.verifyPayment cfg sessions pid
        = .error "STRIPE_PAYMENT_NOT_COMPLETED" ∧
    (∀ (db : List Order) (req oid e : String) (admin : Bool) (now : Nat),
      (Payment.verifyPaymentEndpoint db req admin oid (.error e) now).2 = db) ∧
    (∀ (pid2 : String) (now : Nat),
      ∃ r, Payment.WeChatPaymentGateway.verifyPayment pid2 now = .ok r ∧
        r.success = true ∧ r.status = "completed") ∧
    (∀ (pid3 : String) (now : Nat),
      ∃ r, Payment.AlipayPaymentGateway.verifyPayment pid3 now = .ok r ∧
        r.success = true ∧ r.status = "completed") := by
  refine ⟨?_, ?_, fun pid2 now => ⟨_, rfl, rfl, rfl⟩,
    fun pid3 now => ⟨_, rfl, rfl, rfl⟩⟩
  · unfold Payment.StripePaymentGateway.verifyPayment
    rw [hk]
    dsimp only
    rw [hsess]
    dsimp only
    rw [if_neg hnp]
  · intro db req oid e admin now
    unfold Payment.verifyPaymentEndpoint Payment.applyVerifyOutcome
    cases hf : OrderService.findOrder db oid with
    | none => rfl
    | some o =>
        dsimp only
        by_cases h : o.userId = req ∨ admin = true
        · rw [if_pos h]
        · rw [if_neg h]

/-- Witness for C6's amended theorem: a configured gateway and a concrete
still-unpaid session. -/
theorem c6_verify_amended_witness :
    Payment.StripePaymentGateway.verifyPayment Payment.demoStripeConfig
        Payment.demoSessions "cs_1" = .error "STRIPE_PAYMENT_NOT_COMPLETED" ∧
    (∀ (db : List Order) (req oid e : String) (admin : Bool) (now : Nat),
      (Payment.verifyPaymentEndpoint db req admin oid (.error e) now).2 = db) ∧
    (∀ (pid2 : String) (now : Nat),
      ∃ r, Payment.WeChatPaymentGateway.verifyPayment pid2 now = .ok r ∧
        r.success = true ∧ r.status = "completed") ∧
    (∀ (pid3 : String) (now : Nat),
      ∃ r, Payment.AlipayPaymentGateway.verifyPayment pid3 now = .ok r ∧
        r.success = true ∧ r.status = "completed") :=
  c6_verify_amended Payment.demoStripeConfig "sk_test_1" Payment.demoSessions
    "cs_1" { id := "cs_1", payment_status := "unpaid",
             amount_total := some 4990, currency := some "usd", created := 7 }
    rfl rfl (by decide)

/-- C7: for a method string not registered in the gateway registry (not one
of stripe, paypal, wechat, alipay), `PaymentManager.createPayment` rejects
with `UNSUPPORTED_PAYMENT_METHOD` and delegates to no gateway adapter: the
result is this constant error whatever the adapter implementations are. -/
theorem c7_unsupported_method {α : Type}
    (gateways : String → Order → String → String → Except String α)
    (method : String) (order : Order) (returnUrl cancelUrl : String)
    (h : method ∉ Payment.PaymentManager.gatewayKeys) :
    Payment.PaymentManager.createPayment gateways method order returnUrl
        cancelUrl = .error "UNSUPPORTED_PAYMENT_METHOD" := by
  unfold Payment.PaymentManager.createPayment
  rw [if_neg h]

/-- Witness for C7: the unregistered method `credit_card` (accepted by the
request validator but absent from the registry) is rejected. -/
theorem c7_unsupported_method_witness :
    Payment.PaymentManager.createPayment
        (fun _ _ _ _ => Except.ok "session") "credit_card"
        (OrderService.createOrder "o1" "u1" 299 0) "https://r" "https://c"
      = .error "UNSUPPORTED_PAYMENT_METHOD" :=
  c7_unsupported_method (fun _ _ _ _ => Except.ok "session") "credit_card"
    (OrderService.createOrder "o1" "u1" 299 0) "https://r" "https://c"
    (by decide)

/-- C9: the Stripe adapter's minor-to-major conversion (divide by 100)
followed by the major-to-minor conversion (multiply by 100 and round) is the
identity on every minor-unit amount, in particular on the boundary values 1,
99, 100 and 100000. -/
theorem c9_minor_unit_roundtrip :
    (∀ m : ℤ, Payment.StripePaymentGateway.majorToMinor
        (Payment.StripePaymentGateway.minorToMajor m) = m) ∧
    Payment.StripePaymentGateway.majorToMinor
        (Payment.StripePaymentGateway.minorToMajor 1) = 1 ∧
    Payment.StripePaymentGateway.majorToMinor
        (Payment.StripePaymentGateway.minorToMajor 99) = 99 ∧
    Payment.StripePaymentGateway.majorToMinor
        (Payment.StripePaymentGateway.minorToMajor 100) = 100 ∧
    Payment.StripePaymentGateway.majorToMinor
        (Payment.StripePaymentGateway.minorToMajor 100000) = 100000 := by
  have h : ∀ m : ℤ, Payment.StripePaymentGateway.majorToMinor
      (Payment.StripePaymentGateway.minorToMajor m) = m := by
    intro m
    unfold Payment.StripePaymentGateway.majorToMinor
      Payment.StripePaymentGateway.minorToMajor
    rw [div_mul_cancel₀ _ (by norm_num : (100 : ℚ) ≠ 0)]
    exact round_intCast m
  exact ⟨h, h 1, h 99, h 100, h 100000⟩

/-- C10 counterexample: `toString` is not one of the four registered
methods, yet `calculateFees(100, "toString")` is not the claimed 3.00
default: the object-literal lookup `feeRates["toString"]` resolves the
truthy `Object.prototype.toString`, the `|| 0.03` fallback is bypassed, and
`amount * rate` is NaN (`none`). -/
theorem c10_prototype_key_counterexample :
    "toString" ∉ Payment.PaymentManager.gatewayKeys ∧
    Payment.PaymentManager.calculateFees 100 "toString" = none ∧
    (none : Option ℚ) ≠ some 3 := by decide

/-- C10 amended: `calculateFees` multiplies the amount by the fixed
per-method rate (stripe 2.9%, paypal 3.4%, wechat 0.6%, alipay 0.6%); in
particular fees on 100.00 are 2.90 for stripe and 0.60 for wechat; a method
outside the table gets the 3% default (fees on 100.00 are 3.00) provided it
is not the name of an inherited `Object.prototype` member — for such names
(e.g. `toString`, `valueOf`) the truthy inherited member bypasses the
`|| 0.03` fallback and the result is NaN, not a fee. -/
theorem c10_calculateFees :
    (∀ a : ℚ,
      Payment.PaymentManager.calculateFees a "stripe"
          = some (a * (29 / 1000)) ∧
      Payment.PaymentManager.calculateFees a "paypal"
          = some (a * (34 / 1000)) ∧
      Payment.PaymentManager.calculateFees a "wechat"
          = some (a * (6 / 1000)) ∧
      Payment.PaymentManager.calculateFees a "alipay"
          = some (a * (6 / 1000))) ∧
    Payment.PaymentManager.calculateFees 100 "stripe" = some (29 / 10) ∧
    Payment.PaymentManager.calculateFees 100 "wechat" = some (3 / 5) ∧
    (∀ m : String, m ∉ Payment.PaymentManager.gatewayKeys →
      m ∉ Payment.objectPrototypeKeys →
      ∀ a : ℚ, Payment.PaymentManager.calculateFees a m
        = some (a * (3 / 100))) ∧
    Payment.PaymentManager.calculateFees 100 "credit_card" = some 3 ∧
    (∀ m : String, m ∈ Payment.objectPrototypeKeys →
      ∀ a : ℚ, Payment.PaymentManager.calculateFees a m = none) := by
  refine ⟨fun a => ⟨?_, ?_, ?_, ?_⟩, ?_, ?_, ?_, ?_, ?_⟩
  · unfold Payment.PaymentManager.calculateFees
    rw [if_pos rfl]
  · unfold Payment.PaymentManager.calculateFees
    rw [if_neg (by decide), if_pos rfl]
  · unfold Payment.PaymentManager.calculateFees
    rw [if_neg (by decide), if_neg (by decide), if_pos rfl]
  · unfold Payment.PaymentManager.calculateFees
    rw [if_neg (by decide), if_neg (by decide), if_neg (by decide),
      if_pos rfl]
  · unfold Payment.PaymentManager.calculateFees
    rw [if_pos rfl]
    norm_num
  · unfold Payment.PaymentManager.calculateFees
    rw [if_neg (by decide), if_neg (by decide), if_pos rfl]
    norm_num
  · intro m hm hp a
    simp only [Payment.PaymentManager.gatewayKeys, List.mem_cons,
      List.not_mem_nil, or_false, not_or] at hm
    obtain ⟨h1, h2, h3, h4⟩ := hm
    unfold Payment.PaymentManager.calculateFees
    rw [if_neg h1, if_neg h2, if_neg h3, if_neg h4, if_neg hp]
  · unfold Payment.PaymentManager.calculateFees
    rw [if_neg (by decide), if_neg (by decide), if_neg (by decide),
      if_neg (by decide), if_neg (by decide)]
    norm_num
  · intro m hm a
    simp only [Payment.objectPrototypeKeys, List.mem_cons,
      List.not_mem_nil, or_false] at hm
    rcases hm with rfl | rfl | rfl | rfl | rfl | rfl | rfl | rfl | rfl |
      rfl | rfl | rfl
    all_goals rfl

/-- Witness for C10's conditional conjuncts: the unregistered,
non-inherited method `bank_transfer` falls back to the 3% default, while
the inherited name `valueOf` yields NaN. -/
theorem c10_calculateFees_witness :
    Payment.PaymentManager.calculateFees 7 "bank_transfer"
        = some (7 * (3 / 100)) ∧
    Payment.PaymentManager.calculateFees 7 "valueOf" = none :=
  ⟨c10_calculateFees.2.2.2.1 "bank_transfer" (by decide) (by decide) 7,
   c10_calculateFees.2.2.2.2.2 "valueOf" (by decide) 7⟩

end FigurinePlatform
